import Mathlib

/-!
# Controller hot-plug bookkeeping of the SDL2 platform backend

A shallow embedding of the joystick and gamepad branches of
`PlatformBackend::update`, the two slot scans `find_joystick_index` and
`find_gamepad_index`, and `PlatformBackend::shutdown`
(`src/internal/platform_backend_sdl2.cpp`), followed by the properties
established about them.

Conventions of the embedding:

* a C pointer is an `Option`: `none` is `nullptr`;
* the SDL library is not part of the repository: whatever the code asks the
  library (`SDL_IsGameController`, `SDL_JoystickOpen`, `SDL_JoystickInstanceID`,
  `SDL_GameControllerGetJoystick`, the name / vendor / ... queries) is a field of
  the record `SDL`, supplied with every event, so the answers may change from one
  event to the next;
* a non-null handle is named by the instance id it was opened with; what the
  library answers about a handle, open or closed, is a matter of `SDL` alone;
* `Input::max_controllers` is declared in `blah/input.h`; it is the parameter
  `max_controllers` of every definition that reads it;
* the calls made on `InputState` are returned as a list of `Call`, the calls
  that release native resources as a list of `NativeCall`;
* a `float` is the rational number it denotes, and a `float` division is the
  exact quotient rounded to binary32 (`f32_round`).
-/

namespace Blah

/-! ## Native handles -/

/-- A value of type `SDL_Joystick*` other than null, named by the instance id the library
gave the device connection when it opened the joystick. It is a name only: what
`SDL_JoystickInstanceID` answers for the pointer is the library's business (`SDL`). -/
structure SDL_Joystick where
  instance_id : Int
deriving DecidableEq, Repr

/-- A value of type `SDL_GameController*` other than null, named by the joystick the
controller was opened on. What `SDL_GameControllerGetJoystick` answers for the pointer is
the library's business (`SDL`). -/
structure SDL_GameController where
  joystick : SDL_Joystick
deriving DecidableEq, Repr

/-- The answers of the SDL library that the event loop consumes, as they stand when one
event is handled. Device indices are `int`, handles may be null. The code calls
`SDL_JoystickInstanceID` and `SDL_GameControllerGetJoystick` also on handles it has
already closed; what the library answers then is not constrained here. -/
structure SDL where
  SDL_IsGameController : Int → Bool
  SDL_JoystickOpen : Int → Option SDL_Joystick
  SDL_JoystickInstanceID : Option SDL_Joystick → Int
  SDL_JoystickName : Option SDL_Joystick → Option String
  SDL_JoystickNumButtons : Option SDL_Joystick → Int
  SDL_JoystickNumAxes : Option SDL_Joystick → Int
  SDL_JoystickGetVendor : Option SDL_Joystick → Nat
  SDL_JoystickGetProduct : Option SDL_Joystick → Nat
  SDL_JoystickGetProductVersion : Option SDL_Joystick → Nat
  SDL_GameControllerOpen : Int → Option SDL_GameController
  SDL_GameControllerGetJoystick : Option SDL_GameController → Option SDL_Joystick
  SDL_GameControllerName : Option SDL_GameController → Option String
  SDL_GameControllerGetVendor : Option SDL_GameController → Nat
  SDL_GameControllerGetProduct : Option SDL_GameController → Nat
  SDL_GameControllerGetProductVersion : Option SDL_GameController → Nat

/-! ## Engine side -/

/-- Modelled from the spec: the engine button identifier of `blah/input.h` (not under
`src/`): the sentinel "none" button, or the value obtained by casting a native button
ordinal. -/
inductive Button where
  | None
  | ofOrdinal (ordinal : Nat)
deriving DecidableEq, Repr

/-- Modelled from the spec: the engine axis identifier of `blah/input.h` (not under
`src/`): the sentinel "none" axis, or the value obtained by casting a native axis
ordinal. -/
inductive Axis where
  | None
  | ofOrdinal (ordinal : Nat)
deriving DecidableEq, Repr

/-- A call on `state.controllers[slot]`, the `InputState` sink. -/
inductive Call where
  | on_connect (slot : Int) (name : Option String) (is_gamepad : Int)
      (button_count axis_count : Int) (vendor product version : Nat)
  | on_disconnect (slot : Int)
  | on_press (slot : Int) (button : Button)
  | on_release (slot : Int) (button : Button)
  | on_axis (slot : Int) (axis : Axis) (value : ℚ)
deriving DecidableEq

/-- A call that releases a native resource. -/
inductive NativeCall where
  | SDL_JoystickClose (joystick : Option SDL_Joystick)
  | SDL_GameControllerClose (gamepad : Option SDL_GameController)
  | SDL_DestroyWindow (window : Nat)
  | SDL_free (path : String)
  | SDL_Quit
deriving DecidableEq, Repr

/-! ## Backend state -/

/-- The file-scope variables of the backend. -/
structure Backend where
  window : Option Nat
  joysticks : List (Option SDL_Joystick)
  gamepads : List (Option SDL_GameController)
  basePath : Option String
  userPath : Option String
  displayed : Bool
deriving DecidableEq, Repr

/-- The zero-initialised file-scope variables at program start: every pointer null. -/
def Backend.initial (max_controllers : Nat) : Backend where
  window := none
  joysticks := List.replicate max_controllers none
  gamepads := List.replicate max_controllers none
  basePath := none
  userPath := none
  displayed := false

/-- The loop of `find_joystick_index`, from index `i` with `n` iterations left. -/
def find_joystick_index.loop (sdl : SDL) (joysticks : List (Option SDL_Joystick))
    (instance_id : Int) : Nat → Nat → Int
  | 0, _ => -1
  | n + 1, i =>
    match joysticks.getD i none with
    | some joystick =>
      if sdl.SDL_JoystickInstanceID (some joystick) = instance_id then (i : Int)
      else find_joystick_index.loop sdl joysticks instance_id n (i + 1)
    | none => find_joystick_index.loop sdl joysticks instance_id n (i + 1)

/-- The function `find_joystick_index`: first index below `max_controllers` whose entry is
non-null and for which the library answers the given instance id, else `-1`. -/
def find_joystick_index (max_controllers : Nat) (sdl : SDL) (b : Backend) (instance_id : Int) :
    Int :=
  find_joystick_index.loop sdl b.joysticks instance_id max_controllers 0

/-- The loop of `find_gamepad_index`, from index `i` with `n` iterations left. -/
def find_gamepad_index.loop (sdl : SDL) (gamepads : List (Option SDL_GameController))
    (instance_id : Int) : Nat → Nat → Int
  | 0, _ => -1
  | n + 1, i =>
    match gamepads.getD i none with
    | some gamepad =>
      let joystick := sdl.SDL_GameControllerGetJoystick (some gamepad)
      if sdl.SDL_JoystickInstanceID joystick = instance_id then (i : Int)
      else find_gamepad_index.loop sdl gamepads instance_id n (i + 1)
    | none => find_gamepad_index.loop sdl gamepads instance_id n (i + 1)

/-- The function `find_gamepad_index`. -/
def find_gamepad_index (max_controllers : Nat) (sdl : SDL) (b : Backend) (instance_id : Int) :
    Int :=
  find_gamepad_index.loop sdl b.gamepads instance_id max_controllers 0

/-! ## `float` arithmetic -/

/-- Nearest integer, ties to the even one. -/
def round_half_even (x : ℚ) : ℤ :=
  if x - ⌊x⌋ < 1 / 2 then ⌊x⌋
  else if 1 / 2 < x - ⌊x⌋ then ⌊x⌋ + 1
  else if ⌊x⌋ % 2 = 0 then ⌊x⌋ else ⌊x⌋ + 1

/-- Rounding of a rational to IEEE-754 binary32, round-to-nearest-even: 24 significant
bits, least exponent `-126` (below it the spacing stays `2 ^ (-149)`). Overflow to
infinity is not represented; no quotient formed by the backend comes near it. -/
def f32_round (q : ℚ) : ℚ :=
  if q = 0 then 0
  else (round_half_even (q / 2 ^ (max (Int.log 2 |q|) (-126) - 23)) : ℚ)
    * 2 ^ (max (Int.log 2 |q|) (-126) - 23)

/-- The `float` division `a / b`. -/
def f32_div (a b : ℚ) : ℚ :=
  f32_round (a / b)

/-! ## The event loop -/

/-- The joystick and gamepad events of `SDL_Event`, with the payload fields the backend
reads: `which` is `Sint32`, `button` and `axis` are `Uint8`, `value` is `Sint16`. The
other branches of the loop (quit, mouse, keyboard, text) touch neither table nor
`state.controllers`. -/
inductive SDL_Event where
  | JOYDEVICEADDED (which : Int)
  | JOYDEVICEREMOVED (which : Int)
  | JOYBUTTONDOWN (which : Int) (button : Nat)
  | JOYBUTTONUP (which : Int) (button : Nat)
  | JOYAXISMOTION (which : Int) (axis : Nat) (value : Int)
  | CONTROLLERDEVICEADDED (which : Int)
  | CONTROLLERDEVICEREMOVED (which : Int)
  | CONTROLLERBUTTONDOWN (which : Int) (button : Nat)
  | CONTROLLERBUTTONUP (which : Int) (button : Nat)
  | CONTROLLERAXISMOTION (which : Int) (axis : Nat) (value : Int)
deriving DecidableEq, Repr

/-- What handling one event leaves behind: the backend variables, the calls made on
`state.controllers`, and the native release calls, each in program order. -/
structure Outcome where
  backend : Backend
  calls : List Call
  native : List NativeCall

/-- One iteration of the `while (SDL_PollEvent(&event))` loop of
`PlatformBackend::update`, for a joystick or gamepad event. -/
def update_event (max_controllers : Nat) (sdl : SDL) (b : Backend) : SDL_Event → Outcome
  | .JOYDEVICEADDED index =>
    if sdl.SDL_IsGameController index = false ∧ index ≥ 0 ∧ index < (max_controllers : Int) then
      let ptr := sdl.SDL_JoystickOpen index
      let name := sdl.SDL_JoystickName ptr
      let button_count := sdl.SDL_JoystickNumButtons ptr
      let axis_count := sdl.SDL_JoystickNumAxes ptr
      let vendor := sdl.SDL_JoystickGetVendor ptr
      let product := sdl.SDL_JoystickGetProduct ptr
      let version := sdl.SDL_JoystickGetProductVersion ptr
      ⟨{ b with joysticks := b.joysticks.set index.toNat ptr },
        [Call.on_connect index name 0 button_count axis_count vendor product version], []⟩
    else ⟨b, [], []⟩
  | .JOYDEVICEREMOVED which =>
    let index := find_joystick_index max_controllers sdl b which
    if index ≥ 0 then
      if sdl.SDL_IsGameController index = false then
        ⟨b, [Call.on_disconnect index],
          [NativeCall.SDL_JoystickClose (b.joysticks.getD index.toNat none)]⟩
      else ⟨b, [], []⟩
    else ⟨b, [], []⟩
  | .JOYBUTTONDOWN which button =>
    let index := find_joystick_index max_controllers sdl b which
    if index ≥ 0 then
      if sdl.SDL_IsGameController index = false then
        ⟨b, [Call.on_press index (Button.ofOrdinal button)], []⟩
      else ⟨b, [], []⟩
    else ⟨b, [], []⟩
  | .JOYBUTTONUP which button =>
    let index := find_joystick_index max_controllers sdl b which
    if index ≥ 0 then
      if sdl.SDL_IsGameController index = false then
        ⟨b, [Call.on_release index (Button.ofOrdinal button)], []⟩
      else ⟨b, [], []⟩
    else ⟨b, [], []⟩
  | .JOYAXISMOTION which axis value =>
    let index := find_joystick_index max_controllers sdl b which
    if index ≥ 0 then
      if sdl.SDL_IsGameController index = false then
        let value : ℚ := if value ≥ 0 then f32_div value 32767 else f32_div value 32768
        ⟨b, [Call.on_axis index (Axis.ofOrdinal axis) value], []⟩
      else ⟨b, [], []⟩
    else ⟨b, [], []⟩
  | .CONTROLLERDEVICEADDED index =>
    if index ≥ 0 ∧ index < (max_controllers : Int) then
      let ptr := sdl.SDL_GameControllerOpen index
      let name := sdl.SDL_GameControllerName ptr
      let vendor := sdl.SDL_GameControllerGetVendor ptr
      let product := sdl.SDL_GameControllerGetProduct ptr
      let version := sdl.SDL_GameControllerGetProductVersion ptr
      ⟨{ b with gamepads := b.gamepads.set index.toNat ptr },
        [Call.on_connect index name 1 15 6 vendor product version], []⟩
    else ⟨b, [], []⟩
  | .CONTROLLERDEVICEREMOVED which =>
    let index := find_gamepad_index max_controllers sdl b which
    if index ≥ 0 then
      ⟨b, [Call.on_disconnect index],
        [NativeCall.SDL_GameControllerClose (b.gamepads.getD index.toNat none)]⟩
    else ⟨b, [], []⟩
  | .CONTROLLERBUTTONDOWN which cbutton =>
    let index := find_gamepad_index max_controllers sdl b which
    if index ≥ 0 then
      let button : Button :=
        if cbutton ≥ 0 ∧ cbutton < 15 then Button.ofOrdinal cbutton else Button.None
      ⟨b, [Call.on_press index button], []⟩
    else ⟨b, [], []⟩
  | .CONTROLLERBUTTONUP which cbutton =>
    let index := find_gamepad_index max_controllers sdl b which
    if index ≥ 0 then
      let button : Button :=
        if cbutton ≥ 0 ∧ cbutton < 15 then Button.ofOrdinal cbutton else Button.None
      ⟨b, [Call.on_release index button], []⟩
    else ⟨b, [], []⟩
  | .CONTROLLERAXISMOTION which caxis value =>
    let index := find_gamepad_index max_controllers sdl b which
    if index ≥ 0 then
      let axis : Axis :=
        if caxis ≥ 0 ∧ caxis < 6 then Axis.ofOrdinal caxis else Axis.None
      let value : ℚ := if value ≥ 0 then f32_div value 32767 else f32_div value 32768
      ⟨b, [Call.on_axis index axis value], []⟩
    else ⟨b, [], []⟩

/-- The event loop over the events polled in one or several frames, each with the
library answers in force when it is handled: the outcomes are chained, the calls
concatenated in order. -/
def update : Nat → Backend → List (SDL × SDL_Event) → Outcome
  | _, b, [] => ⟨b, [], []⟩
  | max_controllers, b, (sdl, event) :: rest =>
    let first := update_event max_controllers sdl b event
    let others := update max_controllers first.backend rest
    ⟨others.backend, first.calls ++ others.calls, first.native ++ others.native⟩

/-- The function `PlatformBackend::shutdown`: destroys the window, frees the two path
strings and calls `SDL_Quit`. -/
def shutdown (b : Backend) : Backend × List NativeCall :=
  let destroy := match b.window with
    | some w => [NativeCall.SDL_DestroyWindow w]
    | none => []
  let freeBase := match b.basePath with
    | some p => [NativeCall.SDL_free p]
    | none => []
  let freeUser := match b.userPath with
    | some p => [NativeCall.SDL_free p]
    | none => []
  ({ b with window := none, displayed := false },
    destroy ++ freeBase ++ freeUser ++ [NativeCall.SDL_Quit])

/-! ## Vocabulary of the properties -/

/-- Number of non-null entries of a slot table. -/
def occupied {α : Type} (table : List (Option α)) : Nat :=
  (table.filter Option.isSome).length

/-- The scan shared by the two lookups. -/
def firstMatch {α : Type} (key : α → Int) (table : List (Option α)) (instance_id : Int) :
    Nat → Nat → Int
  | 0, _ => -1
  | n + 1, i =>
    match table.getD i none with
    | some a => if key a = instance_id then (i : Int) else firstMatch key table instance_id n (i + 1)
    | none => firstMatch key table instance_id n (i + 1)

/-- The instance id the library reports for a non-null raw entry. -/
def joystick_answer (sdl : SDL) (joystick : SDL_Joystick) : Int :=
  sdl.SDL_JoystickInstanceID (some joystick)

/-- The instance id the library reports for a non-null gamepad entry. -/
def gamepad_answer (sdl : SDL) (gamepad : SDL_GameController) : Int :=
  sdl.SDL_JoystickInstanceID (sdl.SDL_GameControllerGetJoystick (some gamepad))

/-- Entry `t` of the table is non-null and has the instance id as its key. -/
def holds {α : Type} (key : α → Int) (table : List (Option α)) (instance_id : Int) (t : Nat) : Prop :=
  ∃ a, table.getD t none = some a ∧ key a = instance_id

instance holds_decidable {α : Type} (key : α → Int) (table : List (Option α)) (instance_id : Int)
    (t : Nat) : Decidable (holds key table instance_id t) :=
  match h : table.getD t none with
  | some a =>
    if hk : key a = instance_id then isTrue ⟨a, h, hk⟩
    else isFalse (fun ⟨c, hc, hkc⟩ => hk (by rw [h] at hc; cases hc; exact hkc))
  | none => isFalse (fun ⟨c, hc, _⟩ => by rw [h] at hc; cases hc)

/-- The library answers of one step agree with a classification `recognized` of the
physical devices (by instance id) into gamepads and plain joysticks: at a raw
device-added event `SDL_IsGameController` says for the device index what `recognized`
says for the device found there, and a gamepad device-added event announces a recognized
device. -/
def consistent (recognized : Int → Bool) : SDL × SDL_Event → Bool
  | (sdl, .JOYDEVICEADDED which) =>
    match sdl.SDL_JoystickOpen which with
    | some joystick => sdl.SDL_IsGameController which == recognized joystick.instance_id
    | none => true
  | (sdl, .CONTROLLERDEVICEADDED which) =>
    match sdl.SDL_GameControllerOpen which with
    | some gamepad => recognized gamepad.joystick.instance_id
    | none => true
  | _ => true

/-! ## Concrete libraries, states and runs -/

/-- A library whose devices are all plain joysticks: the joystick at device index `i` has
instance id `100 + i`, and no device opens as a controller. Asked for the instance id of
a joystick, it answers the id the joystick was opened with, whether or not the joystick
has been closed since (the memory of a closed joystick is left as it was). -/
def sdl_plain : SDL where
  SDL_IsGameController := fun _ => false
  SDL_JoystickOpen := fun i => some ⟨100 + i⟩
  SDL_JoystickInstanceID := fun p => match p with
    | some joystick => joystick.instance_id
    | none => -1
  SDL_JoystickName := fun _ => some "stick"
  SDL_JoystickNumButtons := fun _ => 4
  SDL_JoystickNumAxes := fun _ => 2
  SDL_JoystickGetVendor := fun _ => 1
  SDL_JoystickGetProduct := fun _ => 2
  SDL_JoystickGetProductVersion := fun _ => 3
  SDL_GameControllerOpen := fun _ => none
  SDL_GameControllerGetJoystick := fun p => p.map SDL_GameController.joystick
  SDL_GameControllerName := fun _ => none
  SDL_GameControllerGetVendor := fun _ => 1
  SDL_GameControllerGetProduct := fun _ => 2
  SDL_GameControllerGetProductVersion := fun _ => 3

/-- The plain library, except that it no longer knows the joystick of instance id 100:
asked for its instance id it answers `-1` (a library that invalidates a handle when the
joystick is closed). -/
def sdl_plain_invalidating : SDL :=
  { sdl_plain with
    SDL_JoystickInstanceID := fun p => match p with
      | some joystick => if joystick.instance_id = 100 then -1 else joystick.instance_id
      | none => -1 }

/-- A library with a recognized gamepad (instance id 7) at device index 0 and plain
joysticks (instance id `100 + i`) at the other device indices. It answers the id a handle
was opened with, whether or not the handle has been closed since. -/
def sdl_mixed : SDL where
  SDL_IsGameController := fun i => decide (i = 0)
  SDL_JoystickOpen := fun i => some ⟨if i = 0 then 7 else 100 + i⟩
  SDL_JoystickInstanceID := fun p => match p with
    | some joystick => joystick.instance_id
    | none => -1
  SDL_JoystickName := fun _ => some "device"
  SDL_JoystickNumButtons := fun _ => 4
  SDL_JoystickNumAxes := fun _ => 2
  SDL_JoystickGetVendor := fun _ => 1
  SDL_JoystickGetProduct := fun _ => 2
  SDL_JoystickGetProductVersion := fun _ => 3
  SDL_GameControllerOpen := fun i => if i = 0 then some ⟨⟨7⟩⟩ else none
  SDL_GameControllerGetJoystick := fun p => p.map SDL_GameController.joystick
  SDL_GameControllerName := fun _ => some "pad"
  SDL_GameControllerGetVendor := fun _ => 1
  SDL_GameControllerGetProduct := fun _ => 2
  SDL_GameControllerGetProductVersion := fun _ => 3

/-- A library with three devices attached: plain joysticks of instance ids 100 and 101 at
device indices 0 and 1, a recognized gamepad of instance id 7 at device index 2. -/
def sdl_three : SDL where
  SDL_IsGameController := fun i => decide (i = 2)
  SDL_JoystickOpen := fun i =>
    if i = 0 then some ⟨100⟩ else if i = 1 then some ⟨101⟩ else if i = 2 then some ⟨7⟩ else none
  SDL_JoystickInstanceID := fun p => match p with
    | some joystick => joystick.instance_id
    | none => -1
  SDL_JoystickName := fun _ => some "device"
  SDL_JoystickNumButtons := fun _ => 4
  SDL_JoystickNumAxes := fun _ => 2
  SDL_JoystickGetVendor := fun _ => 1
  SDL_JoystickGetProduct := fun _ => 2
  SDL_JoystickGetProductVersion := fun _ => 3
  SDL_GameControllerOpen := fun i => if i = 2 then some ⟨⟨7⟩⟩ else none
  SDL_GameControllerGetJoystick := fun p => p.map SDL_GameController.joystick
  SDL_GameControllerName := fun _ => some "pad"
  SDL_GameControllerGetVendor := fun _ => 1
  SDL_GameControllerGetProduct := fun _ => 2
  SDL_GameControllerGetProductVersion := fun _ => 3

/-- The library of `sdl_three` once the joystick of instance id 100 has been unplugged:
the two devices left have moved down, the plain joystick 101 to device index 0 and the
gamepad 7 to device index 1. -/
def sdl_two : SDL :=
  { sdl_three with
    SDL_IsGameController := fun i => decide (i = 1)
    SDL_JoystickOpen := fun i => if i = 0 then some ⟨101⟩ else if i = 1 then some ⟨7⟩ else none
    SDL_GameControllerOpen := fun i => if i = 1 then some ⟨⟨7⟩⟩ else none }

/-- The backend after the plain library reported a joystick at device index 1: raw slot 1
holds the joystick with instance id 101. -/
def backend_with_stick : Backend :=
  (update 8 (Backend.initial 8) [(sdl_plain, .JOYDEVICEADDED 1)]).backend

/-- The backend after the mixed library reported a controller at device index 0: gamepad
slot 0 holds the controller with instance id 7. -/
def backend_with_pad : Backend :=
  (update 8 (Backend.initial 8) [(sdl_mixed, .CONTROLLERDEVICEADDED 0)]).backend

/-- The backend with one raw slot and one gamepad slot occupied, a window and both path
strings set. -/
def backend_running : Backend :=
  { (update 8 (Backend.initial 8)
      [(sdl_mixed, .JOYDEVICEADDED 1), (sdl_mixed, .CONTROLLERDEVICEADDED 0)]).backend with
    window := some 1, basePath := some "base", userPath := some "user", displayed := true }

/-- A run on the mixed library in which the gamepad is announced on the raw path both
before and after it is announced on the gamepad path. -/
def run_mixed : List (SDL × SDL_Event) :=
  [(sdl_mixed, .JOYDEVICEADDED 0), (sdl_mixed, .JOYDEVICEADDED 1),
   (sdl_mixed, .CONTROLLERDEVICEADDED 0), (sdl_mixed, .JOYDEVICEADDED 0),
   (sdl_mixed, .CONTROLLERBUTTONDOWN 7 3)]

/-- Three devices arrive (the two plain joysticks take raw slots 0 and 1, the gamepad
takes gamepad slot 2), then the joystick of instance id 100 is unplugged and its
device-removed event handled. -/
def run_unplug_first : List (SDL × SDL_Event) :=
  [(sdl_three, .JOYDEVICEADDED 0), (sdl_three, .JOYDEVICEADDED 1),
   (sdl_three, .JOYDEVICEADDED 2), (sdl_three, .CONTROLLERDEVICEADDED 2),
   (sdl_two, .JOYDEVICEREMOVED 100)]

/-! ## The two scans -/

theorem find_joystick_index_loop_eq (sdl : SDL) (table : List (Option SDL_Joystick))
    (instance_id : Int) (n i : Nat) :
    find_joystick_index.loop sdl table instance_id n i
      = firstMatch (joystick_answer sdl) table instance_id n i := by
  induction n generalizing i with
  | zero => rfl
  | succ n ih =>
    simp only [find_joystick_index.loop, firstMatch, ih, joystick_answer]
    cases table.getD i none <;> rfl

theorem find_gamepad_index_loop_eq (sdl : SDL) (table : List (Option SDL_GameController))
    (instance_id : Int) (n i : Nat) :
    find_gamepad_index.loop sdl table instance_id n i
      = firstMatch (gamepad_answer sdl) table instance_id n i := by
  induction n generalizing i with
  | zero => rfl
  | succ n ih =>
    simp only [find_gamepad_index.loop, firstMatch, ih, gamepad_answer]
    cases table.getD i none <;> rfl

theorem firstMatch_none {α : Type} (key : α → Int) (table : List (Option α)) (instance_id : Int)
    (n i : Nat) (h : ∀ t, i ≤ t → t < i + n → ¬ holds key table instance_id t) :
    firstMatch key table instance_id n i = -1 := by
  induction n generalizing i with
  | zero => rfl
  | succ n ih =>
    have hrest : firstMatch key table instance_id n (i + 1) = -1 :=
      ih (i + 1) (fun t h1 h2 => h t (by omega) (by omega))
    have hi := h i (le_refl i) (by omega)
    unfold firstMatch
    cases hget : table.getD i none with
    | none => simpa using hrest
    | some a =>
      have hne : key a ≠ instance_id := fun hk => hi ⟨a, hget, hk⟩
      simp [hne, hrest]

theorem firstMatch_lowest {α : Type} (key : α → Int) (table : List (Option α)) (instance_id : Int)
    (n i s : Nat) (his : i ≤ s) (hsn : s < i + n) (hs : holds key table instance_id s)
    (hlow : ∀ t, i ≤ t → t < s → ¬ holds key table instance_id t) :
    firstMatch key table instance_id n i = (s : Int) := by
  induction n generalizing i with
  | zero => omega
  | succ n ih =>
    unfold firstMatch
    rcases Nat.eq_or_lt_of_le his with heq | hlt
    · subst heq
      obtain ⟨a, hget, hk⟩ := hs
      simp only [hget, hk, if_true]
    · have hrest := ih (i + 1) (by omega) (by omega) (fun t h1 h2 => hlow t (by omega) h2)
      have hi := hlow i (le_refl i) hlt
      cases hget : table.getD i none with
      | none => simpa using hrest
      | some a =>
        have hne : key a ≠ instance_id := fun hk => hi ⟨a, hget, hk⟩
        simp [hne, hrest]

theorem firstMatch_cases {α : Type} (key : α → Int) (table : List (Option α)) (instance_id : Int)
    (n i : Nat) :
    (firstMatch key table instance_id n i = -1
        ∧ ∀ t, i ≤ t → t < i + n → ¬ holds key table instance_id t)
      ∨ ∃ s : Nat, firstMatch key table instance_id n i = (s : Int) ∧ i ≤ s ∧ s < i + n
        ∧ holds key table instance_id s
        ∧ ∀ t, i ≤ t → t < s → ¬ holds key table instance_id t := by
  by_cases h : ∃ t, i ≤ t ∧ t < i + n ∧ holds key table instance_id t
  · right
    classical
    let s := Nat.find h
    have hs : i ≤ s ∧ s < i + n ∧ holds key table instance_id s := Nat.find_spec h
    have hmin : ∀ t, t < s → ¬ (i ≤ t ∧ t < i + n ∧ holds key table instance_id t) :=
      fun t ht => Nat.find_min h ht
    refine ⟨s, ?_, hs.1, hs.2.1, hs.2.2, ?_⟩
    · exact firstMatch_lowest key table instance_id n i s hs.1 hs.2.1 hs.2.2
        (fun t h1 h2 h3 => hmin t h2 ⟨h1, by omega, h3⟩)
    · exact fun t h1 h2 h3 => hmin t h2 ⟨h1, by omega, h3⟩
  · left
    have h2 : ∀ t, i ≤ t → t < i + n → ¬ holds key table instance_id t :=
      fun t h1 h2 h3 => h ⟨t, h1, h2, h3⟩
    exact ⟨firstMatch_none key table instance_id n i h2, h2⟩

theorem find_joystick_index_of_lowest (max_controllers : Nat) (sdl : SDL) (b : Backend)
    (which : Int) (s : Nat) (hs : s < max_controllers)
    (hheld : holds (joystick_answer sdl) b.joysticks which s)
    (hlow : ∀ t, t < s → ¬ holds (joystick_answer sdl) b.joysticks which t) :
    find_joystick_index max_controllers sdl b which = (s : Int) := by
  unfold find_joystick_index
  rw [find_joystick_index_loop_eq]
  exact firstMatch_lowest _ _ _ _ 0 s (Nat.zero_le s) (by omega) hheld (fun t _ h => hlow t h)

theorem find_gamepad_index_of_lowest (max_controllers : Nat) (sdl : SDL) (b : Backend)
    (which : Int) (s : Nat) (hs : s < max_controllers)
    (hheld : holds (gamepad_answer sdl) b.gamepads which s)
    (hlow : ∀ t, t < s → ¬ holds (gamepad_answer sdl) b.gamepads which t) :
    find_gamepad_index max_controllers sdl b which = (s : Int) := by
  unfold find_gamepad_index
  rw [find_gamepad_index_loop_eq]
  exact firstMatch_lowest _ _ _ _ 0 s (Nat.zero_le s) (by omega) hheld (fun t _ h => hlow t h)

theorem find_joystick_index_unresolved (max_controllers : Nat) (sdl : SDL) (b : Backend)
    (which : Int)
    (h : ∀ t, t < max_controllers → ¬ holds (joystick_answer sdl) b.joysticks which t) :
    find_joystick_index max_controllers sdl b which = -1 := by
  unfold find_joystick_index
  rw [find_joystick_index_loop_eq]
  exact firstMatch_none _ _ _ _ 0 (fun t _ h2 => h t (by omega))

theorem find_gamepad_index_unresolved (max_controllers : Nat) (sdl : SDL) (b : Backend)
    (which : Int)
    (h : ∀ t, t < max_controllers → ¬ holds (gamepad_answer sdl) b.gamepads which t) :
    find_gamepad_index max_controllers sdl b which = -1 := by
  unfold find_gamepad_index
  rw [find_gamepad_index_loop_eq]
  exact firstMatch_none _ _ _ _ 0 (fun t _ h2 => h t (by omega))

/-! ## Rounding to binary32 -/

theorem round_half_even_le (x : ℚ) (N : ℤ) (h : x ≤ N) : round_half_even x ≤ N := by
  have hf : ⌊x⌋ ≤ N := by
    have : (⌊x⌋ : ℚ) ≤ N := le_trans (Int.floor_le x) h
    exact_mod_cast this
  unfold round_half_even
  rcases lt_or_eq_of_le hf with hlt | heq
  · split_ifs <;> omega
  · have hx : x = N := le_antisymm h (by rw [← heq]; exact Int.floor_le x)
    have h0 : x - (⌊x⌋ : ℚ) < 1 / 2 := by
      rw [heq, hx]; norm_num
    rw [if_pos h0]
    exact hf

theorem le_round_half_even (x : ℚ) (N : ℤ) (h : (N : ℚ) ≤ x) : N ≤ round_half_even x := by
  have hf : N ≤ ⌊x⌋ := Int.le_floor.mpr h
  unfold round_half_even
  split_ifs <;> omega

theorem round_half_even_error (x : ℚ) : |(round_half_even x : ℚ) - x| ≤ 1 / 2 := by
  have h1 := Int.floor_le x
  have h2 := Int.lt_floor_add_one x
  unfold round_half_even
  rw [abs_le]
  split_ifs with ha hb hc
  · constructor <;> linarith
  · push_cast; constructor <;> linarith
  · constructor <;> linarith
  · push_cast; constructor <;> linarith

/-- The exponent used for a rational of magnitude at most one is not positive. -/
theorem log_two_nonpos (r : ℚ) (hr : r ≤ 1) : Int.log 2 r ≤ 0 := by
  rw [Int.log_of_right_le_one 2 hr]
  simp

theorem f32_round_zero : f32_round 0 = 0 := by
  simp [f32_round]

theorem f32_round_one : f32_round 1 = 1 := by
  have h : Int.log 2 (1 : ℚ) = 0 := Int.log_one_right 2
  have hr : round_half_even (8388608 : ℚ) = 8388608 := by
    apply le_antisymm
    · exact round_half_even_le _ 8388608 (by norm_num)
    · exact le_round_half_even _ 8388608 (by norm_num)
  simp only [f32_round, abs_one, h]
  norm_num
  rw [hr]
  norm_num

theorem f32_round_neg_one : f32_round (-1) = -1 := by
  have h : Int.log 2 (1 : ℚ) = 0 := Int.log_one_right 2
  have hr : round_half_even (-8388608 : ℚ) = -8388608 := by
    apply le_antisymm
    · exact round_half_even_le _ (-8388608) (by norm_num)
    · exact le_round_half_even _ (-8388608) (by norm_num)
  simp only [f32_round, abs_neg, abs_one, h]
  norm_num
  rw [hr]
  norm_num

/-- The spacing of binary32 values around a rational of magnitude at most one is
`2 ^ (-k)` for some `k ≥ 23`. -/
theorem f32_spacing (q : ℚ) (h : |q| ≤ 1) :
    ∃ k : ℕ, 23 ≤ k ∧ (2 : ℚ) ^ (max (Int.log 2 |q|) (-126) - 23) = ((2 : ℚ) ^ k)⁻¹ := by
  have hlog := log_two_nonpos |q| h
  refine ⟨(23 - max (Int.log 2 |q|) (-126)).toNat, by omega, ?_⟩
  rw [← zpow_natCast, ← zpow_neg]
  congr 1
  omega

theorem f32_round_bounds (q : ℚ) (h : |q| ≤ 1) : -1 ≤ f32_round q ∧ f32_round q ≤ 1 := by
  unfold f32_round
  split_ifs with h0
  · constructor <;> norm_num
  · obtain ⟨k, -, hk⟩ := f32_spacing q h
    rw [hk]
    have hpos : (0 : ℚ) < 2 ^ k := by positivity
    have hq := abs_le.mp h
    have hN : ((2 ^ k : ℤ) : ℚ) = 2 ^ k := by push_cast; rfl
    have hdiv : q / ((2 : ℚ) ^ k)⁻¹ = q * 2 ^ k := by rw [div_inv_eq_mul]
    rw [hdiv]
    have hup : round_half_even (q * 2 ^ k) ≤ (2 ^ k : ℤ) :=
      round_half_even_le _ _ (by rw [hN]; nlinarith)
    have hlo : -(2 ^ k : ℤ) ≤ round_half_even (q * 2 ^ k) :=
      le_round_half_even _ _ (by push_cast; nlinarith)
    have hup2 : (round_half_even (q * 2 ^ k) : ℚ) ≤ 2 ^ k := by exact_mod_cast hup
    have hlo2 : -(2 : ℚ) ^ k ≤ (round_half_even (q * 2 ^ k) : ℚ) := by exact_mod_cast hlo
    constructor
    · rw [le_mul_inv_iff₀ hpos]; linarith
    · rw [mul_inv_le_iff₀ hpos]; linarith

theorem f32_round_error (q : ℚ) (h : |q| ≤ 1) : |f32_round q - q| ≤ 1 / 2 ^ 24 := by
  unfold f32_round
  split_ifs with h0
  · rw [h0]; norm_num
  · obtain ⟨k, hk23, hk⟩ := f32_spacing q h
    rw [hk]
    have hpos : (0 : ℚ) < 2 ^ k := by positivity
    have hdiv : q / ((2 : ℚ) ^ k)⁻¹ = q * 2 ^ k := by rw [div_inv_eq_mul]
    rw [hdiv]
    have herr := round_half_even_error (q * 2 ^ k)
    have hfac : (round_half_even (q * 2 ^ k) : ℚ) * ((2 : ℚ) ^ k)⁻¹ - q
        = ((round_half_even (q * 2 ^ k) : ℚ) - q * 2 ^ k) * ((2 : ℚ) ^ k)⁻¹ := by
      field_simp
      ring
    rw [hfac, abs_mul, abs_of_pos (inv_pos.mpr hpos)]
    have hk2 : (2 : ℚ) ^ 23 ≤ 2 ^ k := pow_le_pow_right₀ (by norm_num) hk23
    have hinv : ((2 : ℚ) ^ k)⁻¹ ≤ 1 / 2 ^ 23 := by
      rw [one_div]; exact inv_anti₀ (by positivity) hk2
    calc |(round_half_even (q * 2 ^ k) : ℚ) - q * 2 ^ k| * ((2 : ℚ) ^ k)⁻¹
        ≤ 1 / 2 * (1 / 2 ^ 23) :=
          mul_le_mul herr hinv (le_of_lt (inv_pos.mpr hpos)) (by norm_num)
      _ = 1 / 2 ^ 24 := by norm_num

theorem axis_quotient_abs_le_one (v : Int) (hlo : -32768 ≤ v) (hhi : v ≤ 32767) :
    |(if v ≥ 0 then (v : ℚ) / 32767 else (v : ℚ) / 32768)| ≤ 1 := by
  have h1 : (-32768 : ℚ) ≤ v := by exact_mod_cast hlo
  have h2 : (v : ℚ) ≤ 32767 := by exact_mod_cast hhi
  split_ifs with h
  · have h0 : (0 : ℚ) ≤ v := by exact_mod_cast h
    rw [abs_le]
    constructor
    · have : (0 : ℚ) ≤ (v : ℚ) / 32767 := by positivity
      linarith
    · rw [div_le_one (by norm_num)]; exact h2
  · rw [abs_le]
    constructor
    · rw [le_div_iff₀ (by norm_num)]; linarith
    · have h0 : (v : ℚ) < 0 := by exact_mod_cast (not_le.mp h)
      have : (v : ℚ) / 32768 ≤ 0 := by
        apply div_nonpos_of_nonpos_of_nonneg (le_of_lt h0) (by norm_num)
      linarith

/-! ## Slot tables -/

theorem getD_replicate_none {α : Type} (n i : Nat) :
    (List.replicate n (none : Option α)).getD i none = none := by
  rw [List.getD_eq_getElem?_getD, List.getElem?_replicate]
  split_ifs <;> rfl

theorem getD_set_replicate_self {α : Type} (n i : Nat) (h : i < n) (p : Option α) :
    ((List.replicate n (none : Option α)).set i p).getD i none = p := by
  simp [List.getD_eq_getElem?_getD, List.getElem?_set, h]

theorem getD_set_replicate_other {α : Type} (n i t : Nat) (h : t ≠ i) (p : Option α) :
    ((List.replicate n (none : Option α)).set i p).getD t none = none := by
  simp only [List.getD_eq_getElem?_getD, List.getElem?_set, if_neg (Ne.symm h)]
  by_cases ht : t < n
  · simp [List.getElem?_replicate, ht]
  · simp [List.getElem?_replicate, ht]

theorem getD_set_some {α : Type} (table : List (Option α)) (n m : Nat) (p : Option α) (a : α)
    (h : (table.set n p).getD m none = some a) :
    (m = n ∧ p = some a) ∨ (m ≠ n ∧ table.getD m none = some a) := by
  rw [List.getD_eq_getElem?_getD, List.getElem?_set] at h
  by_cases hnm : n = m
  · left
    rw [if_pos hnm] at h
    refine ⟨hnm.symm, ?_⟩
    split_ifs at h with hl
    · simpa using h
    · simp at h
  · right
    rw [if_neg hnm] at h
    exact ⟨fun hc => hnm hc.symm, by rw [List.getD_eq_getElem?_getD]; exact h⟩

theorem occupied_replicate {α : Type} (n : Nat) :
    occupied (List.replicate n (none : Option α)) = 0 := by
  induction n with
  | zero => rfl
  | succ n ih => simp [occupied, List.replicate_succ]

theorem occupied_set_replicate {α : Type} (n i : Nat) (h : i < n) (a : α) :
    occupied ((List.replicate n (none : Option α)).set i (some a)) = 1 := by
  induction n generalizing i with
  | zero => omega
  | succ n ih =>
    cases i with
    | zero =>
      have := occupied_replicate (α := α) n
      simp only [occupied] at this
      simp [occupied, List.replicate_succ, this]
    | succ i =>
      have := ih i (by omega)
      simp only [occupied] at this
      simp [occupied, List.replicate_succ, this]

theorem update_event_joysticks (max_controllers : Nat) (sdl : SDL) (b : Backend)
    (event : SDL_Event) :
    (update_event max_controllers sdl b event).backend.joysticks = b.joysticks
      ∨ ∃ which, event = .JOYDEVICEADDED which ∧ sdl.SDL_IsGameController which = false
        ∧ (update_event max_controllers sdl b event).backend.joysticks
          = b.joysticks.set which.toNat (sdl.SDL_JoystickOpen which) := by
  cases event with
  | JOYDEVICEADDED which =>
    by_cases h : sdl.SDL_IsGameController which = false ∧ which ≥ 0
        ∧ which < (max_controllers : Int)
    · right
      exact ⟨which, rfl, h.1, by simp only [update_event, if_pos h]⟩
    · left
      simp only [update_event, if_neg h]
  | _ => left; simp only [update_event]; split_ifs <;> rfl

theorem update_event_gamepads (max_controllers : Nat) (sdl : SDL) (b : Backend)
    (event : SDL_Event) :
    (update_event max_controllers sdl b event).backend.gamepads = b.gamepads
      ∨ ∃ which, event = .CONTROLLERDEVICEADDED which
        ∧ (update_event max_controllers sdl b event).backend.gamepads
          = b.gamepads.set which.toNat (sdl.SDL_GameControllerOpen which) := by
  cases event with
  | CONTROLLERDEVICEADDED which =>
    by_cases h : which ≥ 0 ∧ which < (max_controllers : Int)
    · right
      exact ⟨which, rfl, by simp only [update_event, if_pos h]⟩
    · left
      simp only [update_event, if_neg h]
  | _ => left; simp only [update_event]; split_ifs <;> rfl

theorem update_cons (max_controllers : Nat) (b : Backend) (sdl : SDL) (event : SDL_Event)
    (rest : List (SDL × SDL_Event)) :
    (update max_controllers b ((sdl, event) :: rest)).backend
      = (update max_controllers (update_event max_controllers sdl b event).backend rest).backend :=
  rfl

/-- Along a run whose library answers agree with the classification, every non-null raw
entry is a plain joystick and every non-null gamepad entry a recognized gamepad. -/
theorem tables_classified_run (max_controllers : Nat) (recognized : Int → Bool)
    (events : List (SDL × SDL_Event)) :
    ∀ b : Backend,
      (∀ i j, b.joysticks.getD i none = some j →
        recognized (j.instance_id) = false) →
      (∀ k g, b.gamepads.getD k none = some g →
        recognized (g.joystick.instance_id) = true) →
      (∀ step ∈ events, consistent recognized step = true) →
      (∀ i j, (update max_controllers b events).backend.joysticks.getD i none = some j →
          recognized (j.instance_id) = false)
        ∧ (∀ k g, (update max_controllers b events).backend.gamepads.getD k none = some g →
          recognized (g.joystick.instance_id) = true) := by
  induction events with
  | nil => intro b hraw hpad _; exact ⟨hraw, hpad⟩
  | cons step rest ih =>
    obtain ⟨sdl, event⟩ := step
    intro b hraw hpad hcons
    rw [update_cons]
    have hstep := hcons (sdl, event) (List.mem_cons_self _ _)
    apply ih _ _ _ (fun s hs => hcons s (List.mem_cons_of_mem _ hs))
    · intro i j hij
      rcases update_event_joysticks max_controllers sdl b event with heq | ⟨which, hev, hgc, hset⟩
      · rw [heq] at hij; exact hraw i j hij
      · rw [hset] at hij
        rcases getD_set_some _ _ _ _ _ hij with ⟨-, hopen⟩ | ⟨-, hold⟩
        · subst hev
          simp only [consistent, hopen, hgc, beq_iff_eq] at hstep
          exact hstep.symm
        · exact hraw i j hold
    · intro k g hkg
      rcases update_event_gamepads max_controllers sdl b event with heq | ⟨which, hev, hset⟩
      · rw [heq] at hkg; exact hpad k g hkg
      · rw [hset] at hkg
        rcases getD_set_some _ _ _ _ _ hkg with ⟨-, hopen⟩ | ⟨-, hold⟩
        · subst hev
          simp only [consistent, hopen] at hstep
          exact hstep
        · exact hpad k g hold

/-! ## Hot-plug sequences and unresolved events -/

/-- For every in-range index and every joystick the library does not report as a gamepad:
after the raw device-added event and the device-removed event carrying the instance id
the library reports for the joystick, the calls are one connect and one disconnect at
that slot and the joystick has been closed, but the table entry still holds the closed
joystick, so one slot is occupied. -/
theorem raw_add_then_remove (max_controllers : Nat) (sdl₁ sdl₂ : SDL) (i : Nat)
    (joystick : SDL_Joystick) (hi : i < max_controllers)
    (hopen : sdl₁.SDL_JoystickOpen i = some joystick)
    (h₁ : sdl₁.SDL_IsGameController i = false) (h₂ : sdl₂.SDL_IsGameController i = false) :
    (update max_controllers (Backend.initial max_controllers)
        [(sdl₁, .JOYDEVICEADDED i),
         (sdl₂, .JOYDEVICEREMOVED (joystick_answer sdl₂ joystick))]).calls
      = [Call.on_connect i (sdl₁.SDL_JoystickName (some joystick)) 0
            (sdl₁.SDL_JoystickNumButtons (some joystick))
            (sdl₁.SDL_JoystickNumAxes (some joystick))
            (sdl₁.SDL_JoystickGetVendor (some joystick))
            (sdl₁.SDL_JoystickGetProduct (some joystick))
            (sdl₁.SDL_JoystickGetProductVersion (some joystick)),
          Call.on_disconnect i]
    ∧ (update max_controllers (Backend.initial max_controllers)
        [(sdl₁, .JOYDEVICEADDED i),
         (sdl₂, .JOYDEVICEREMOVED (joystick_answer sdl₂ joystick))]).native
      = [NativeCall.SDL_JoystickClose (some joystick)]
    ∧ (update max_controllers (Backend.initial max_controllers)
        [(sdl₁, .JOYDEVICEADDED i),
         (sdl₂, .JOYDEVICEREMOVED (joystick_answer sdl₂ joystick))]).backend.joysticks
      = (List.replicate max_controllers none).set i (some joystick)
    ∧ occupied (update max_controllers (Backend.initial max_controllers)
        [(sdl₁, .JOYDEVICEADDED i),
         (sdl₂, .JOYDEVICEREMOVED (joystick_answer sdl₂ joystick))]).backend.joysticks
      = 1 := by
  have hacc : sdl₁.SDL_IsGameController (i : Int) = false ∧ (i : Int) ≥ 0
      ∧ (i : Int) < (max_controllers : Int) := ⟨h₁, Int.natCast_nonneg i, by exact_mod_cast hi⟩
  have hnn : (i : Int) ≥ 0 := Int.natCast_nonneg i
  have hfind : find_joystick_index max_controllers sdl₂
      ⟨none, (List.replicate max_controllers none).set i (some joystick),
        List.replicate max_controllers none, none, none, false⟩
      (joystick_answer sdl₂ joystick) = (i : Int) := by
    apply find_joystick_index_of_lowest _ _ _ _ i hi
    · exact ⟨joystick, getD_set_replicate_self _ _ hi _, rfl⟩
    · rintro t ht ⟨a, ha, -⟩
      rw [getD_set_replicate_other _ _ _ (by omega)] at ha
      exact Option.noConfusion ha
  have hadd : update_event max_controllers sdl₁ (Backend.initial max_controllers)
      (.JOYDEVICEADDED i)
      = ⟨⟨none, (List.replicate max_controllers none).set i (some joystick),
            List.replicate max_controllers none, none, none, false⟩,
          [Call.on_connect i (sdl₁.SDL_JoystickName (some joystick)) 0
            (sdl₁.SDL_JoystickNumButtons (some joystick))
            (sdl₁.SDL_JoystickNumAxes (some joystick))
            (sdl₁.SDL_JoystickGetVendor (some joystick))
            (sdl₁.SDL_JoystickGetProduct (some joystick))
            (sdl₁.SDL_JoystickGetProductVersion (some joystick))], []⟩ := by
    simp only [update_event, if_pos hacc, hopen, Int.toNat_ofNat, Backend.initial]
  have hremove : update_event max_controllers sdl₂
      ⟨none, (List.replicate max_controllers none).set i (some joystick),
        List.replicate max_controllers none, none, none, false⟩
      (.JOYDEVICEREMOVED (joystick_answer sdl₂ joystick))
      = ⟨⟨none, (List.replicate max_controllers none).set i (some joystick),
            List.replicate max_controllers none, none, none, false⟩,
          [Call.on_disconnect i], [NativeCall.SDL_JoystickClose (some joystick)]⟩ := by
    simp only [update_event, hfind, if_pos hnn, h₂, if_true, Int.toNat_ofNat,
      getD_set_replicate_self _ _ hi]
  simp only [update, hadd, hremove, List.singleton_append, List.nil_append, List.append_nil,
    occupied_set_replicate _ _ hi, and_self]

/-- For every in-range index, controller and button ordinal below 15: the gamepad
device-added, button-down and device-removed events, the last two carrying the instance
id the library reports for the controller, make the calls connect (abstracted, 15
buttons, 6 axes), press and disconnect at that slot, the controller is closed, and the
table entry still holds the closed controller. -/
theorem gamepad_add_press_remove (max_controllers : Nat) (sdl₁ sdl₂ sdl₃ : SDL) (i button : Nat)
    (gamepad : SDL_GameController) (hi : i < max_controllers) (hb : button < 15)
    (hopen : sdl₁.SDL_GameControllerOpen i = some gamepad) :
    (update max_controllers (Backend.initial max_controllers)
        [(sdl₁, .CONTROLLERDEVICEADDED i),
         (sdl₂, .CONTROLLERBUTTONDOWN (gamepad_answer sdl₂ gamepad) button),
         (sdl₃, .CONTROLLERDEVICEREMOVED (gamepad_answer sdl₃ gamepad))]).calls
      = [Call.on_connect i (sdl₁.SDL_GameControllerName (some gamepad)) 1 15 6
            (sdl₁.SDL_GameControllerGetVendor (some gamepad))
            (sdl₁.SDL_GameControllerGetProduct (some gamepad))
            (sdl₁.SDL_GameControllerGetProductVersion (some gamepad)),
          Call.on_press i (Button.ofOrdinal button),
          Call.on_disconnect i]
    ∧ (update max_controllers (Backend.initial max_controllers)
        [(sdl₁, .CONTROLLERDEVICEADDED i),
         (sdl₂, .CONTROLLERBUTTONDOWN (gamepad_answer sdl₂ gamepad) button),
         (sdl₃, .CONTROLLERDEVICEREMOVED (gamepad_answer sdl₃ gamepad))]).native
      = [NativeCall.SDL_GameControllerClose (some gamepad)]
    ∧ (update max_controllers (Backend.initial max_controllers)
        [(sdl₁, .CONTROLLERDEVICEADDED i),
         (sdl₂, .CONTROLLERBUTTONDOWN (gamepad_answer sdl₂ gamepad) button),
         (sdl₃, .CONTROLLERDEVICEREMOVED (gamepad_answer sdl₃ gamepad))]).backend.gamepads
      = (List.replicate max_controllers none).set i (some gamepad) := by
  have hnn : (i : Int) ≥ 0 := Int.natCast_nonneg i
  have hacc : (i : Int) ≥ 0 ∧ (i : Int) < (max_controllers : Int) :=
    ⟨hnn, by exact_mod_cast hi⟩
  have hb2 : button ≥ 0 ∧ button < 15 := ⟨Nat.zero_le button, hb⟩
  have hfind : ∀ sdl : SDL, find_gamepad_index max_controllers sdl
      ⟨none, List.replicate max_controllers none,
        (List.replicate max_controllers none).set i (some gamepad), none, none, false⟩
      (gamepad_answer sdl gamepad) = (i : Int) := by
    intro sdl
    apply find_gamepad_index_of_lowest _ _ _ _ i hi
    · exact ⟨gamepad, getD_set_replicate_self _ _ hi _, rfl⟩
    · rintro t ht ⟨a, ha, -⟩
      rw [getD_set_replicate_other _ _ _ (by omega)] at ha
      exact Option.noConfusion ha
  have hadd : update_event max_controllers sdl₁ (Backend.initial max_controllers)
      (.CONTROLLERDEVICEADDED i)
      = ⟨⟨none, List.replicate max_controllers none,
            (List.replicate max_controllers none).set i (some gamepad), none, none, false⟩,
          [Call.on_connect i (sdl₁.SDL_GameControllerName (some gamepad)) 1 15 6
            (sdl₁.SDL_GameControllerGetVendor (some gamepad))
            (sdl₁.SDL_GameControllerGetProduct (some gamepad))
            (sdl₁.SDL_GameControllerGetProductVersion (some gamepad))], []⟩ := by
    simp only [update_event, if_pos hacc, hopen, Int.toNat_ofNat, Backend.initial]
  have hpress : update_event max_controllers sdl₂
      ⟨none, List.replicate max_controllers none,
        (List.replicate max_controllers none).set i (some gamepad), none, none, false⟩
      (.CONTROLLERBUTTONDOWN (gamepad_answer sdl₂ gamepad) button)
      = ⟨⟨none, List.replicate max_controllers none,
            (List.replicate max_controllers none).set i (some gamepad), none, none, false⟩,
          [Call.on_press i (Button.ofOrdinal button)], []⟩ := by
    simp only [update_event, hfind sdl₂, if_pos hnn, if_pos hb2]
  have hremove : update_event max_controllers sdl₃
      ⟨none, List.replicate max_controllers none,
        (List.replicate max_controllers none).set i (some gamepad), none, none, false⟩
      (.CONTROLLERDEVICEREMOVED (gamepad_answer sdl₃ gamepad))
      = ⟨⟨none, List.replicate max_controllers none,
            (List.replicate max_controllers none).set i (some gamepad), none, none, false⟩,
          [Call.on_disconnect i], [NativeCall.SDL_GameControllerClose (some gamepad)]⟩ := by
    simp only [update_event, hfind sdl₃, if_pos hnn, Int.toNat_ofNat,
      getD_set_replicate_self _ _ hi]
  simp only [update, hadd, hpress, hremove, List.singleton_append, List.nil_append,
    List.append_nil, and_self]

/-- A raw table whose only non-null entry is a joystick at slot `i`, as a removal leaves
it: whether a later button-down event is forwarded is decided by what the library
answers for that joystick. If it answers the event's instance id (and reports no gamepad
for `i`), the press is forwarded at slot `i`; if it answers anything else, no call is
made. -/
theorem raw_press_on_lone_entry (max_controllers : Nat) (sdl : SDL) (b : Backend) (i : Nat)
    (joystick : SDL_Joystick) (which : Int) (button : Nat) (hi : i < max_controllers)
    (htable : b.joysticks = (List.replicate max_controllers none).set i (some joystick)) :
    (joystick_answer sdl joystick = which → sdl.SDL_IsGameController i = false →
        (update_event max_controllers sdl b (.JOYBUTTONDOWN which button)).calls
          = [Call.on_press i (Button.ofOrdinal button)])
      ∧ (joystick_answer sdl joystick ≠ which →
        (update_event max_controllers sdl b (.JOYBUTTONDOWN which button)).calls = []) := by
  constructor
  · intro hanswer hgc
    have hfind : find_joystick_index max_controllers sdl b which = (i : Int) := by
      apply find_joystick_index_of_lowest _ _ _ _ i hi
      · exact ⟨joystick, by rw [htable]; exact getD_set_replicate_self _ _ hi _, hanswer⟩
      · rintro t ht ⟨a, ha, -⟩
        rw [htable, getD_set_replicate_other _ _ _ (by omega)] at ha
        exact Option.noConfusion ha
    have hnn : (i : Int) ≥ 0 := Int.natCast_nonneg i
    simp only [update_event, hfind, if_pos hnn, hgc, if_true]
  · intro hanswer
    have hfind : find_joystick_index max_controllers sdl b which = -1 := by
      apply find_joystick_index_unresolved
      rintro t - ⟨a, ha, hk⟩
      rw [htable] at ha
      by_cases hti : t = i
      · subst hti
        rw [getD_set_replicate_self _ _ hi] at ha
        cases ha
        exact hanswer hk
      · rw [getD_set_replicate_other _ _ _ hti] at ha
        exact Option.noConfusion ha
    have hneg : ¬ ((-1 : Int) ≥ 0) := by decide
    simp only [update_event, hfind, if_neg hneg]

/-- The same for a gamepad table whose only non-null entry is a controller at slot `i`. -/
theorem gamepad_press_on_lone_entry (max_controllers : Nat) (sdl : SDL) (b : Backend) (i : Nat)
    (gamepad : SDL_GameController) (which : Int) (button : Nat) (hi : i < max_controllers)
    (hb : button < 15)
    (htable : b.gamepads = (List.replicate max_controllers none).set i (some gamepad)) :
    (gamepad_answer sdl gamepad = which →
        (update_event max_controllers sdl b (.CONTROLLERBUTTONDOWN which button)).calls
          = [Call.on_press i (Button.ofOrdinal button)])
      ∧ (gamepad_answer sdl gamepad ≠ which →
        (update_event max_controllers sdl b (.CONTROLLERBUTTONDOWN which button)).calls = []) := by
  constructor
  · intro hanswer
    have hfind : find_gamepad_index max_controllers sdl b which = (i : Int) := by
      apply find_gamepad_index_of_lowest _ _ _ _ i hi
      · exact ⟨gamepad, by rw [htable]; exact getD_set_replicate_self _ _ hi _, hanswer⟩
      · rintro t ht ⟨a, ha, -⟩
        rw [htable, getD_set_replicate_other _ _ _ (by omega)] at ha
        exact Option.noConfusion ha
    have hnn : (i : Int) ≥ 0 := Int.natCast_nonneg i
    have hb2 : button ≥ 0 ∧ button < 15 := ⟨Nat.zero_le button, hb⟩
    simp only [update_event, hfind, if_pos hnn, if_pos hb2]
  · intro hanswer
    have hfind : find_gamepad_index max_controllers sdl b which = -1 := by
      apply find_gamepad_index_unresolved
      rintro t - ⟨a, ha, hk⟩
      rw [htable] at ha
      by_cases hti : t = i
      · subst hti
        rw [getD_set_replicate_self _ _ hi] at ha
        cases ha
        exact hanswer hk
      · rw [getD_set_replicate_other _ _ _ hti] at ha
        exact Option.noConfusion ha
    have hneg : ¬ ((-1 : Int) ≥ 0) := by decide
    simp only [update_event, hfind, if_neg hneg]

/-- Raw table: a button or axis event whose instance id the library reports for no
non-null raw entry below `max_controllers` changes nothing and calls nothing. -/
theorem raw_event_unresolved_dropped (max_controllers : Nat) (sdl : SDL) (b : Backend)
    (which : Int) (ordinal : Nat) (value : Int)
    (h : ∀ t, t < max_controllers → ¬ holds (joystick_answer sdl) b.joysticks which t) :
    (update_event max_controllers sdl b (.JOYBUTTONDOWN which ordinal)).backend = b
      ∧ (update_event max_controllers sdl b (.JOYBUTTONDOWN which ordinal)).calls = []
      ∧ (update_event max_controllers sdl b (.JOYBUTTONUP which ordinal)).backend = b
      ∧ (update_event max_controllers sdl b (.JOYBUTTONUP which ordinal)).calls = []
      ∧ (update_event max_controllers sdl b (.JOYAXISMOTION which ordinal value)).backend = b
      ∧ (update_event max_controllers sdl b (.JOYAXISMOTION which ordinal value)).calls = [] := by
  have hfind := find_joystick_index_unresolved max_controllers sdl b which h
  have hneg : ¬ ((-1 : Int) ≥ 0) := by decide
  simp only [update_event, hfind, if_neg hneg, and_self]

/-- Gamepad table: a button or axis event whose instance id the library reports for no
non-null gamepad entry below `max_controllers` changes nothing and calls nothing. -/
theorem gamepad_event_unresolved_dropped (max_controllers : Nat) (sdl : SDL) (b : Backend)
    (which : Int) (ordinal : Nat) (value : Int)
    (h : ∀ t, t < max_controllers →
      ¬ holds (gamepad_answer sdl) b.gamepads which t) :
    (update_event max_controllers sdl b (.CONTROLLERBUTTONDOWN which ordinal)).backend = b
      ∧ (update_event max_controllers sdl b (.CONTROLLERBUTTONDOWN which ordinal)).calls = []
      ∧ (update_event max_controllers sdl b (.CONTROLLERBUTTONUP which ordinal)).backend = b
      ∧ (update_event max_controllers sdl b (.CONTROLLERBUTTONUP which ordinal)).calls = []
      ∧ (update_event max_controllers sdl b (.CONTROLLERAXISMOTION which ordinal value)).backend
        = b
      ∧ (update_event max_controllers sdl b (.CONTROLLERAXISMOTION which ordinal value)).calls
        = [] := by
  have hfind := find_gamepad_index_unresolved max_controllers sdl b which h
  have hneg : ¬ ((-1 : Int) ≥ 0) := by decide
  simp only [update_event, hfind, if_neg hneg, and_self]

/-- What the raw button branches do, in terms of the test the code makes: for a
button-down / button-up event whose instance id the library reports for the non-null
raw-table entry `s` and for no lower one, exactly one call is made when the library does
not report a gamepad for the number `s` taken as a device index, `on_press` (down) or
`on_release` (up) at slot `s` with the native button ordinal itself, and no call when it
does. In both cases the backend variables are unchanged and nothing is released. -/
theorem raw_button_forwarded (max_controllers : Nat) (sdl : SDL) (b : Backend) (which : Int)
    (button s : Nat) (hs : s < max_controllers)
    (hheld : holds (joystick_answer sdl) b.joysticks which s)
    (hlow : ∀ t, t < s → ¬ holds (joystick_answer sdl) b.joysticks which t) :
    (update_event max_controllers sdl b (.JOYBUTTONDOWN which button)).backend = b
      ∧ (update_event max_controllers sdl b (.JOYBUTTONUP which button)).backend = b
      ∧ (update_event max_controllers sdl b (.JOYBUTTONDOWN which button)).native = []
      ∧ (update_event max_controllers sdl b (.JOYBUTTONUP which button)).native = []
      ∧ (sdl.SDL_IsGameController s = false →
          (update_event max_controllers sdl b (.JOYBUTTONDOWN which button)).calls
              = [Call.on_press s (Button.ofOrdinal button)]
            ∧ (update_event max_controllers sdl b (.JOYBUTTONUP which button)).calls
              = [Call.on_release s (Button.ofOrdinal button)])
      ∧ (sdl.SDL_IsGameController s = true →
          (update_event max_controllers sdl b (.JOYBUTTONDOWN which button)).calls = []
            ∧ (update_event max_controllers sdl b (.JOYBUTTONUP which button)).calls = []) := by
  have hfind := find_joystick_index_of_lowest max_controllers sdl b which s hs hheld hlow
  have hnn : (s : Int) ≥ 0 := Int.natCast_nonneg s
  refine ⟨?_, ?_, ?_, ?_, ?_, ?_⟩
  · simp only [update_event, hfind, if_pos hnn]; split_ifs <;> rfl
  · simp only [update_event, hfind, if_pos hnn]; split_ifs <;> rfl
  · simp only [update_event, hfind, if_pos hnn]; split_ifs <;> rfl
  · simp only [update_event, hfind, if_pos hnn]; split_ifs <;> rfl
  · intro hg
    simp only [update_event, hfind, if_pos hnn, hg, if_true, and_self]
  · intro hg
    simp only [update_event, hfind, if_pos hnn, hg, Bool.true_eq_false, if_false, and_self]

/-- For the plain library at the first two events and any library at the third: once the
joystick of instance id 100 has been added at native index 0 and its device-removed
event handled, a button-down event for id 100 is forwarded if the library still answers
100 for the closed joystick, and dropped if it answers anything else. -/
theorem late_press_decided_by_library (sdl : SDL) :
    (sdl.SDL_JoystickInstanceID (some ⟨100⟩) = 100 → sdl.SDL_IsGameController 0 = false →
        (update_event 8 sdl
          (update 8 (Backend.initial 8)
            [(sdl_plain, .JOYDEVICEADDED 0), (sdl_plain, .JOYDEVICEREMOVED 100)]).backend
          (.JOYBUTTONDOWN 100 3)).calls
        = [Call.on_press 0 (Button.ofOrdinal 3)])
      ∧ (sdl.SDL_JoystickInstanceID (some ⟨100⟩) ≠ 100 →
        (update_event 8 sdl
          (update 8 (Backend.initial 8)
            [(sdl_plain, .JOYDEVICEADDED 0), (sdl_plain, .JOYDEVICEREMOVED 100)]).backend
          (.JOYBUTTONDOWN 100 3)).calls
        = []) := by
  have h := raw_press_on_lone_entry 8 sdl
    (update 8 (Backend.initial 8)
      [(sdl_plain, .JOYDEVICEADDED 0), (sdl_plain, .JOYDEVICEREMOVED 100)]).backend
    0 ⟨100⟩ 100 3 (by decide) (by decide)
  exact ⟨fun h1 h2 => h.1 h1 h2, fun h1 => h.2 h1⟩

/-- With the library that answers `-1` for the closed joystick of instance id 100, the
same late button-down event resolves to no slot and makes no call. -/
theorem late_press_dropped_by_invalidating_library :
    (update_event 8 sdl_plain_invalidating
        (update 8 (Backend.initial 8)
          [(sdl_plain, .JOYDEVICEADDED 0), (sdl_plain, .JOYDEVICEREMOVED 100)]).backend
        (.JOYBUTTONDOWN 100 3)).calls
      = [] := by
  decide

/-! ## The claims -/

/-- C1 (behaviour of the code at the failing input): with `max_controllers = 8` and a
plain joystick of instance id 100 at native index 0, a raw device-added event followed
by the device-removed event for id 100 makes exactly the calls connect, disconnect at
slot 0 and closes the joystick, yet the raw table is left with one occupied slot: entry
0 still holds the closed joystick. -/
theorem raw_slot_not_cleared_on_remove :
    (update 8 (Backend.initial 8)
        [(sdl_plain, .JOYDEVICEADDED 0), (sdl_plain, .JOYDEVICEREMOVED 100)]).calls
      = [Call.on_connect 0 (some "stick") 0 4 2 1 2 3, Call.on_disconnect 0]
    ∧ (update 8 (Backend.initial 8)
        [(sdl_plain, .JOYDEVICEADDED 0), (sdl_plain, .JOYDEVICEREMOVED 100)]).native
      = [NativeCall.SDL_JoystickClose (some ⟨100⟩)]
    ∧ (update 8 (Backend.initial 8)
        [(sdl_plain, .JOYDEVICEADDED 0),
         (sdl_plain, .JOYDEVICEREMOVED 100)]).backend.joysticks.getD 0 none
      = some ⟨100⟩
    ∧ occupied (update 8 (Backend.initial 8)
        [(sdl_plain, .JOYDEVICEADDED 0),
         (sdl_plain, .JOYDEVICEREMOVED 100)]).backend.joysticks = 1 := by
  decide

/-- C2 (behaviour of the code at the scenario): with `max_controllers = 8`, a gamepad
device-added event at native index 0 for the controller of instance id 7, a button-down
event with ordinal 3 and the device-removed event make exactly the calls connect
(abstracted, 15 buttons, 6 axes), press of button 3 and disconnect at slot 0, and the
controller is closed; yet slot 0 of the gamepad table is not free afterwards: it still
holds the closed controller. -/
theorem gamepad_slot_not_cleared_on_remove :
    (update 8 (Backend.initial 8)
        [(sdl_mixed, .CONTROLLERDEVICEADDED 0), (sdl_mixed, .CONTROLLERBUTTONDOWN 7 3),
         (sdl_mixed, .CONTROLLERDEVICEREMOVED 7)]).calls
      = [Call.on_connect 0 (some "pad") 1 15 6 1 2 3, Call.on_press 0 (Button.ofOrdinal 3),
          Call.on_disconnect 0]
    ∧ (update 8 (Backend.initial 8)
        [(sdl_mixed, .CONTROLLERDEVICEADDED 0), (sdl_mixed, .CONTROLLERBUTTONDOWN 7 3),
         (sdl_mixed, .CONTROLLERDEVICEREMOVED 7)]).native
      = [NativeCall.SDL_GameControllerClose (some ⟨⟨7⟩⟩)]
    ∧ (update 8 (Backend.initial 8)
        [(sdl_mixed, .CONTROLLERDEVICEADDED 0), (sdl_mixed, .CONTROLLERBUTTONDOWN 7 3),
         (sdl_mixed, .CONTROLLERDEVICEREMOVED 7)]).backend.gamepads.getD 0 none
      = some ⟨⟨7⟩⟩
    ∧ occupied (update 8 (Backend.initial 8)
        [(sdl_mixed, .CONTROLLERDEVICEADDED 0), (sdl_mixed, .CONTROLLERBUTTONDOWN 7 3),
         (sdl_mixed, .CONTROLLERDEVICEREMOVED 7)]).backend.gamepads = 1 := by
  decide

/-- C3: for a signed 16-bit raw axis value `v`, the raw-joystick handler and the gamepad
handler forward one and the same `float`: the quotient of `v` by 32767 when `v ≥ 0` and by
32768 when `v < 0`. It is `1` for 32767, `-1` for -32768, `0` for `0`, lies in `[-1, 1]`,
and is within `2 ^ (-24)` of the exact quotient. -/
theorem axis_normalization (v : Int) (hlo : -32768 ≤ v) (hhi : v ≤ 32767) :
    ∃ forwarded : ℚ,
      (0 ≤ v → forwarded = f32_div v 32767)
      ∧ (v < 0 → forwarded = f32_div v 32768)
      ∧ (v = 32767 → forwarded = 1)
      ∧ (v = -32768 → forwarded = -1)
      ∧ (v = 0 → forwarded = 0)
      ∧ -1 ≤ forwarded ∧ forwarded ≤ 1
      ∧ |forwarded - (if v ≥ 0 then (v : ℚ) / 32767 else (v : ℚ) / 32768)| ≤ 1 / 2 ^ 24
      ∧ (∀ (max_controllers : Nat) (sdl : SDL) (b : Backend) (which : Int) (axis s : Nat),
          find_joystick_index max_controllers sdl b which = (s : Int) →
          sdl.SDL_IsGameController s = false →
          (update_event max_controllers sdl b (.JOYAXISMOTION which axis v)).calls
            = [Call.on_axis s (Axis.ofOrdinal axis) forwarded])
      ∧ (∀ (max_controllers : Nat) (sdl : SDL) (b : Backend) (which : Int) (axis s : Nat),
          find_gamepad_index max_controllers sdl b which = (s : Int) →
          (update_event max_controllers sdl b (.CONTROLLERAXISMOTION which axis v)).calls
            = [Call.on_axis s (if axis < 6 then Axis.ofOrdinal axis else Axis.None)
                forwarded]) := by
  have hq := axis_quotient_abs_le_one v hlo hhi
  have hform : (if v ≥ 0 then f32_div v 32767 else f32_div v 32768)
      = f32_round (if v ≥ 0 then (v : ℚ) / 32767 else (v : ℚ) / 32768) := by
    split_ifs <;> rfl
  refine ⟨if v ≥ 0 then f32_div v 32767 else f32_div v 32768, ?_, ?_, ?_, ?_, ?_, ?_, ?_, ?_, ?_, ?_⟩
  · intro h; rw [if_pos h]
  · intro h; rw [if_neg (by omega)]
  · intro h; subst h
    simp only [f32_div]
    norm_num
    exact f32_round_one
  · intro h; subst h
    simp only [f32_div]
    norm_num
    exact f32_round_neg_one
  · intro h; subst h
    simp only [f32_div]
    norm_num
    exact f32_round_zero
  · rw [hform]; exact (f32_round_bounds _ hq).1
  · rw [hform]; exact (f32_round_bounds _ hq).2
  · rw [hform]; exact f32_round_error _ hq
  · intro max_controllers sdl b which axis s hfind hraw
    have hnn : (s : Int) ≥ 0 := Int.natCast_nonneg s
    simp only [update_event, hfind, if_pos hnn, hraw, if_true]
  · intro max_controllers sdl b which axis s hfind
    have hnn : (s : Int) ≥ 0 := Int.natCast_nonneg s
    have h0 : axis ≥ 0 := Nat.zero_le axis
    simp only [update_event, hfind, if_pos hnn, h0, true_and]

theorem axis_normalization_witness :
    ∃ forwarded : ℚ, forwarded = -1
      ∧ (update_event 8 sdl_plain backend_with_stick (.JOYAXISMOTION 101 0 (-32768))).calls
        = [Call.on_axis 1 (Axis.ofOrdinal 0) forwarded]
      ∧ (update_event 8 sdl_mixed backend_with_pad (.CONTROLLERAXISMOTION 7 0 (-32768))).calls
        = [Call.on_axis 0 (Axis.ofOrdinal 0) forwarded] := by
  obtain ⟨forwarded, -, -, -, hmin, -, -, -, -, hraw, hpad⟩ :=
    axis_normalization (-32768) (by decide) (by decide)
  exact ⟨forwarded, hmin rfl, hraw 8 sdl_plain backend_with_stick 101 0 1 (by decide) rfl,
    hpad 8 sdl_mixed backend_with_pad 7 0 0 (by decide)⟩

/-- C4: a raw or gamepad device-added event whose native index is negative or at least
`max_controllers` is ignored: the backend variables (both slot tables among them) are
unchanged, no call is made on the `InputState` sink, and nothing is released. -/
theorem add_out_of_range_ignored (max_controllers : Nat) (sdl : SDL) (b : Backend) (i : Int)
    (h : i < 0 ∨ (max_controllers : Int) ≤ i) :
    (update_event max_controllers sdl b (.JOYDEVICEADDED i)).backend = b
      ∧ (update_event max_controllers sdl b (.JOYDEVICEADDED i)).calls = []
      ∧ (update_event max_controllers sdl b (.JOYDEVICEADDED i)).native = []
      ∧ (update_event max_controllers sdl b (.CONTROLLERDEVICEADDED i)).backend = b
      ∧ (update_event max_controllers sdl b (.CONTROLLERDEVICEADDED i)).calls = []
      ∧ (update_event max_controllers sdl b (.CONTROLLERDEVICEADDED i)).native = [] := by
  have hr : ¬ (i ≥ 0 ∧ i < (max_controllers : Int)) := by omega
  have hj : ¬ (sdl.SDL_IsGameController i = false ∧ i ≥ 0 ∧ i < (max_controllers : Int)) :=
    fun hc => hr hc.2
  simp only [update_event, if_neg hr, if_neg hj, and_self]

theorem add_out_of_range_ignored_witness :
    ((8 : Int) < 0 ∨ ((8 : Nat) : Int) ≤ 8)
      ∧ (update_event 8 sdl_plain (Backend.initial 8) (.JOYDEVICEADDED 8)).backend
          = Backend.initial 8
      ∧ (update_event 8 sdl_plain (Backend.initial 8) (.JOYDEVICEADDED 8)).calls = []
      ∧ (update_event 8 sdl_plain (Backend.initial 8) (.JOYDEVICEADDED 8)).native = []
      ∧ (update_event 8 sdl_plain (Backend.initial 8) (.CONTROLLERDEVICEADDED 8)).backend
          = Backend.initial 8
      ∧ (update_event 8 sdl_plain (Backend.initial 8) (.CONTROLLERDEVICEADDED 8)).calls = []
      ∧ (update_event 8 sdl_plain (Backend.initial 8) (.CONTROLLERDEVICEADDED 8)).native = [] :=
  ⟨by decide, add_out_of_range_ignored 8 sdl_plain (Backend.initial 8) 8 (by decide)⟩

/-- C5 (behaviour of the code at the failing input): with `max_controllers = 8`, the
joystick of instance id 100 (raw slot 0) and the controller of instance id 7 (gamepad
slot 0) are added and their device-removed events handled, which closes the handles and
leaves the two table entries as they were. A later button-down event for either id makes
the scan ask the library about the closed handle; with a library that still answers the
old id for it, the event is resolved to slot 0 and forwarded to the sink as a press. -/
theorem event_after_remove_still_forwarded :
    sdl_plain.SDL_JoystickInstanceID (some ⟨100⟩) = 100
    ∧ (update 8 (Backend.initial 8)
        [(sdl_plain, .JOYDEVICEADDED 0), (sdl_plain, .JOYDEVICEREMOVED 100)]).native
      = [NativeCall.SDL_JoystickClose (some ⟨100⟩)]
    ∧ (update_event 8 sdl_plain
        (update 8 (Backend.initial 8)
          [(sdl_plain, .JOYDEVICEADDED 0), (sdl_plain, .JOYDEVICEREMOVED 100)]).backend
        (.JOYBUTTONDOWN 100 3)).calls
      = [Call.on_press 0 (Button.ofOrdinal 3)]
    ∧ sdl_mixed.SDL_JoystickInstanceID (sdl_mixed.SDL_GameControllerGetJoystick (some ⟨⟨7⟩⟩)) = 7
    ∧ (update 8 (Backend.initial 8)
        [(sdl_mixed, .CONTROLLERDEVICEADDED 0),
         (sdl_mixed, .CONTROLLERDEVICEREMOVED 7)]).native
      = [NativeCall.SDL_GameControllerClose (some ⟨⟨7⟩⟩)]
    ∧ (update_event 8 sdl_mixed
        (update 8 (Backend.initial 8)
          [(sdl_mixed, .CONTROLLERDEVICEADDED 0),
           (sdl_mixed, .CONTROLLERDEVICEREMOVED 7)]).backend
        (.CONTROLLERBUTTONDOWN 7 3)).calls
      = [Call.on_press 0 (Button.ofOrdinal 3)] := by
  decide

/-- C6: a raw device-added event for a device index at which the library reports a
gamepad changes no backend variable and makes no call; and in the state reached from the
empty tables by any run whose library answers agree with a classification of the
physical devices into gamepads and plain joysticks, whatever the order of the raw and
gamepad device-added events, no instance id is carried by a non-null raw entry and a
non-null gamepad entry at the same time. -/
theorem gamepad_never_in_raw_table (max_controllers : Nat) (recognized : Int → Bool)
    (events : List (SDL × SDL_Event))
    (h : ∀ step ∈ events, consistent recognized step = true) :
    (∀ (sdl : SDL) (b : Backend) (which : Int), sdl.SDL_IsGameController which = true →
        (update_event max_controllers sdl b (.JOYDEVICEADDED which)).backend = b
          ∧ (update_event max_controllers sdl b (.JOYDEVICEADDED which)).calls = []
          ∧ (update_event max_controllers sdl b (.JOYDEVICEADDED which)).native = [])
      ∧ (∀ i k j g,
        (update max_controllers (Backend.initial max_controllers) events).backend.joysticks.getD
          i none = some j →
        (update max_controllers (Backend.initial max_controllers) events).backend.gamepads.getD
          k none = some g →
        j.instance_id ≠ g.joystick.instance_id) := by
  constructor
  · intro sdl b which hgc
    have hrej : ¬ (sdl.SDL_IsGameController which = false ∧ which ≥ 0
        ∧ which < (max_controllers : Int)) := by
      rw [hgc]; exact fun hc => Bool.noConfusion hc.1
    simp only [update_event, if_neg hrej, and_self]
  · intro i k j g hj hg heq
    have hinv := tables_classified_run max_controllers recognized events
      (Backend.initial max_controllers)
      (fun i j hij => by
        rw [Backend.initial, getD_replicate_none] at hij
        exact Option.noConfusion hij)
      (fun k g hkg => by
        rw [Backend.initial, getD_replicate_none] at hkg
        exact Option.noConfusion hkg)
      h
    have h1 := hinv.1 i j hj
    have h2 := hinv.2 k g hg
    rw [heq, h2] at h1
    exact Bool.noConfusion h1

theorem gamepad_never_in_raw_table_witness :
    (update 8 (Backend.initial 8) run_mixed).backend.joysticks
        = [none, some ⟨101⟩, none, none, none, none, none, none]
      ∧ (update 8 (Backend.initial 8) run_mixed).backend.gamepads
        = [some ⟨⟨7⟩⟩, none, none, none, none, none, none, none]
      ∧ (∀ i k j g,
        (update 8 (Backend.initial 8) run_mixed).backend.joysticks.getD i none = some j →
        (update 8 (Backend.initial 8) run_mixed).backend.gamepads.getD k none = some g →
        j.instance_id ≠ g.joystick.instance_id) :=
  ⟨by decide, by decide,
    (gamepad_never_in_raw_table 8 (fun id => decide (id = 7)) run_mixed (by decide)).2⟩

/-- C8: a gamepad button-down / button-up / axis-motion event whose instance id is held
by the occupied gamepad-table slot `s`, no lower slot holding it, makes exactly one call
at slot `s`: `on_press` / `on_release` with the native ordinal itself when it is below 15
and with `Button::None` otherwise, `on_axis` with the native ordinal itself when it is
below 6 and with `Axis::None` otherwise. The backend variables are unchanged. -/
theorem gamepad_event_forwarded (max_controllers : Nat) (sdl : SDL) (b : Backend)
    (which : Int) (ordinal s : Nat) (value : Int) (hs : s < max_controllers)
    (hheld : holds (gamepad_answer sdl) b.gamepads which s)
    (hlow : ∀ t, t < s → ¬ holds (gamepad_answer sdl) b.gamepads which t) :
    (update_event max_controllers sdl b (.CONTROLLERBUTTONDOWN which ordinal)).backend = b
      ∧ (update_event max_controllers sdl b (.CONTROLLERBUTTONUP which ordinal)).backend = b
      ∧ (update_event max_controllers sdl b (.CONTROLLERAXISMOTION which ordinal value)).backend = b
      ∧ (ordinal < 15 →
          (update_event max_controllers sdl b (.CONTROLLERBUTTONDOWN which ordinal)).calls
              = [Call.on_press s (Button.ofOrdinal ordinal)]
            ∧ (update_event max_controllers sdl b (.CONTROLLERBUTTONUP which ordinal)).calls
              = [Call.on_release s (Button.ofOrdinal ordinal)])
      ∧ (15 ≤ ordinal →
          (update_event max_controllers sdl b (.CONTROLLERBUTTONDOWN which ordinal)).calls
              = [Call.on_press s Button.None]
            ∧ (update_event max_controllers sdl b (.CONTROLLERBUTTONUP which ordinal)).calls
              = [Call.on_release s Button.None])
      ∧ (ordinal < 6 →
          (update_event max_controllers sdl b (.CONTROLLERAXISMOTION which ordinal value)).calls
            = [Call.on_axis s (Axis.ofOrdinal ordinal)
                (if value ≥ 0 then f32_div value 32767 else f32_div value 32768)])
      ∧ (6 ≤ ordinal →
          (update_event max_controllers sdl b (.CONTROLLERAXISMOTION which ordinal value)).calls
            = [Call.on_axis s Axis.None
                (if value ≥ 0 then f32_div value 32767 else f32_div value 32768)]) := by
  have hfind := find_gamepad_index_of_lowest max_controllers sdl b which s hs hheld hlow
  have hnn : (s : Int) ≥ 0 := Int.natCast_nonneg s
  have h0 : ordinal ≥ 0 := Nat.zero_le ordinal
  refine ⟨?_, ?_, ?_, ?_, ?_, ?_, ?_⟩
  · simp only [update_event, hfind, if_pos hnn]
  · simp only [update_event, hfind, if_pos hnn]
  · simp only [update_event, hfind, if_pos hnn]
  · intro h
    simp only [update_event, hfind, if_pos hnn, h0, h, and_self, if_true]
  · intro h
    have h2 : ¬ (ordinal ≥ 0 ∧ ordinal < 15) := by omega
    simp only [update_event, hfind, if_pos hnn, if_neg h2, and_self]
  · intro h
    simp only [update_event, hfind, if_pos hnn, h0, h, and_self, if_true]
  · intro h
    have h2 : ¬ (ordinal ≥ 0 ∧ ordinal < 6) := by omega
    simp only [update_event, hfind, if_pos hnn, if_neg h2]

theorem gamepad_event_forwarded_witness :
    (update_event 8 sdl_mixed backend_with_pad (.CONTROLLERBUTTONDOWN 7 200)).calls
        = [Call.on_press 0 Button.None]
      ∧ (update_event 8 sdl_mixed backend_with_pad (.CONTROLLERBUTTONUP 7 200)).calls
        = [Call.on_release 0 Button.None] :=
  (gamepad_event_forwarded 8 sdl_mixed backend_with_pad 7 200 0 0 (by decide)
    (by decide) (by decide)).2.2.2.2.1 (by decide)

/-- C9 (counterexample): for the backend with the joystick of id 101 in raw slot 1 and
the controller of id 7 in gamepad slot 0, `shutdown` closes neither handle and both slots
stay occupied. -/
theorem shutdown_leaves_slots_occupied :
    ¬ (occupied (shutdown backend_running).1.joysticks = 0
        ∧ occupied (shutdown backend_running).1.gamepads = 0
        ∧ NativeCall.SDL_JoystickClose (some ⟨101⟩) ∈ (shutdown backend_running).2
        ∧ NativeCall.SDL_GameControllerClose (some ⟨⟨7⟩⟩) ∈ (shutdown backend_running).2) := by
  decide

/-- C9 (amended): `shutdown` leaves both slot tables exactly as they were and makes no
`SDL_JoystickClose` or `SDL_GameControllerClose` call; the release calls it makes end
with `SDL_Quit`, made once, and it resets the window pointer and the displayed flag. -/
theorem shutdown_keeps_tables (b : Backend) :
    (shutdown b).1.joysticks = b.joysticks
      ∧ (shutdown b).1.gamepads = b.gamepads
      ∧ (∀ joystick, NativeCall.SDL_JoystickClose joystick ∉ (shutdown b).2)
      ∧ (∀ gamepad, NativeCall.SDL_GameControllerClose gamepad ∉ (shutdown b).2)
      ∧ (shutdown b).2.getLast? = some NativeCall.SDL_Quit
      ∧ (shutdown b).2.count NativeCall.SDL_Quit = 1
      ∧ (shutdown b).1.window = none
      ∧ (shutdown b).1.displayed = false := by
  refine ⟨rfl, rfl, ?_, ?_, ?_, ?_, rfl, rfl⟩
  · intro joystick
    unfold shutdown
    cases b.window <;> cases b.basePath <;> cases b.userPath <;> simp
  · intro gamepad
    unfold shutdown
    cases b.window <;> cases b.basePath <;> cases b.userPath <;> simp
  · unfold shutdown
    simp
  · unfold shutdown
    cases b.window <;> cases b.basePath <;> cases b.userPath <;> simp

/-- C10 (behaviour of the code at the failing input): with `max_controllers = 8`, plain
joysticks of instance ids 100 and 101 arrive at device indices 0 and 1 (raw slots 0 and
1) and a gamepad of instance id 7 at device index 2; joystick 100 is unplugged, so that
joystick 101 is now device 0 and the gamepad device 1. Joystick 101 is not a gamepad (the
library denies it for its device index, as it did when the joystick was added), and its
instance id is held by raw slot 1 only. Yet a button-down or button-up event of joystick
101 makes no call: the branch asks `SDL_IsGameController` about the slot number 1, where
the library now sees the gamepad. -/
theorem raw_press_dropped_after_unplug :
    (∀ step ∈ run_unplug_first, consistent (fun id => decide (id = 7)) step = true)
      ∧ (update 8 (Backend.initial 8) run_unplug_first).backend.joysticks
        = [some ⟨100⟩, some ⟨101⟩, none, none, none, none, none, none]
      ∧ sdl_two.SDL_JoystickOpen 0 = some ⟨101⟩
      ∧ sdl_two.SDL_IsGameController 0 = false
      ∧ find_joystick_index 8 sdl_two (update 8 (Backend.initial 8) run_unplug_first).backend 101
        = 1
      ∧ sdl_two.SDL_IsGameController 1 = true
      ∧ (update_event 8 sdl_two (update 8 (Backend.initial 8) run_unplug_first).backend
          (.JOYBUTTONDOWN 101 3)).calls = []
      ∧ (update_event 8 sdl_two (update 8 (Backend.initial 8) run_unplug_first).backend
          (.JOYBUTTONUP 101 3)).calls = [] := by
  decide

end Blah
